import Mathlib

/-!
Verification of the storage-engine type and policy layer of the
fredco-audit playground (Rust crates `playground/types`): message
envelopes (`messages.rs`), storage commands/events/errors and the
eviction configuration (`storage.rs`), together with the eviction
policy described in the design document (its implementation is not
part of the `types` crate).  Rust `u64`/`u32` are modelled as `Nat`
(no overflowing arithmetic occurs in the modelled code), `i64` as
`Int`, and IEEE floats as uninterpreted bit patterns (no float
arithmetic occurs in the modelled code).
-/

/-- Unique identifier for message correlation (`messages.rs`). -/
abbrev MessageId := String

/-- Timestamp in milliseconds since Unix epoch (`messages.rs`). -/
abbrev Timestamp := Nat

/-- IEEE-754 binary32 value, kept as its uninterpreted bit pattern:
no code path modelled here performs float arithmetic. -/
structure F32 where
  bits : Nat
deriving DecidableEq, Repr

/-- IEEE-754 binary64 value, kept as its uninterpreted bit pattern. -/
structure F64 where
  bits : Nat
deriving DecidableEq, Repr

/-- JSON value (`serde_json::Value`); numbers are kept as binary64
bit patterns, matching the uninterpreted-float convention above. -/
inductive Json where
  | null : Json
  | bool (b : Bool) : Json
  | num (v : F64) : Json
  | str (s : String) : Json
  | arr (xs : List Json) : Json
  | obj (fields : List (String × Json)) : Json

/-- Standard error codes (`messages.rs::ErrorCode`). -/
inductive ErrorCode where
  | NotFound
  | InvalidQuery
  | ParseError
  | NetworkError
  | StorageError
  | AuthError
  | Cancelled
  | LimitExceeded
  | Unknown
deriving DecidableEq, Repr

/-- Error information (`messages.rs::ErrorInfo`). -/
structure ErrorInfo where
  code : ErrorCode
  message : String
  details : Option String
deriving DecidableEq, Repr

/-- Result wrapper for all responses (`messages.rs::MessageResult`). -/
inductive MessageResult (T : Type) where
  | Ok (data : T) : MessageResult T
  | Error (error : ErrorInfo) : MessageResult T

/-- Base message envelope for all requests (`messages.rs::Request`). -/
structure Request (T : Type) where
  id : MessageId
  timestamp : Timestamp
  payload : T

/-- Base message envelope for all responses (`messages.rs::Response`). -/
structure Response (T : Type) where
  id : MessageId
  timestamp : Timestamp
  execution_time_ms : Nat
  result : MessageResult T

/-- `MessageResult::ok` (`messages.rs`). -/
def MessageResult.ok {T : Type} (data : T) : MessageResult T :=
  MessageResult.Ok data

/-- `MessageResult::error` (`messages.rs`). -/
def MessageResult.error {T : Type} (code : ErrorCode) (message : String) :
    MessageResult T :=
  MessageResult.Error { code := code, message := message, details := none }

/-- `MessageResult::error_with_details` (`messages.rs`). -/
def MessageResult.error_with_details {T : Type} (code : ErrorCode)
    (message : String) (details : String) : MessageResult T :=
  MessageResult.Error { code := code, message := message, details := some details }

/-- `MessageResult::is_ok` (`messages.rs`). -/
def MessageResult.is_ok {T : Type} : MessageResult T → Bool
  | MessageResult.Ok _ => true
  | MessageResult.Error _ => false

/-- `MessageResult::is_error` (`messages.rs`). -/
def MessageResult.is_error {T : Type} : MessageResult T → Bool
  | MessageResult.Ok _ => false
  | MessageResult.Error _ => true

/-- Cell type (`editor.rs::CellType`). -/
inductive CellType where
  | Sql
  | Markdown
deriving DecidableEq, Repr

/-- Execution state (`editor.rs::ExecutionState`). -/
inductive ExecutionState where
  | Idle
  | Running
  | Success
  | Error
deriving DecidableEq, Repr

/-- Query output (`editor.rs::QueryOutput`). -/
structure QueryOutput where
  columns : List String
  rows : List (List Json)
  total_rows : Nat
  execution_time_ms : Nat
  truncated : Bool

/-- Rendered markdown output (`editor.rs::MarkdownOutput`). -/
structure MarkdownOutput where
  html : String
deriving DecidableEq, Repr

/-- Error output (`editor.rs::ErrorOutput`). -/
structure ErrorOutput where
  message : String
  details : Option String
deriving DecidableEq, Repr

/-- Cell output (`editor.rs::CellOutput`). -/
inductive CellOutput where
  | Query (output : QueryOutput)
  | Markdown (output : MarkdownOutput)
  | Error (output : ErrorOutput)

/-- A notebook cell (`editor.rs::Cell`). -/
structure Cell where
  id : String
  cell_type : CellType
  content : String
  output : Option CellOutput
  state : ExecutionState
  execution_count : Option Nat
  created_at : Timestamp
  modified_at : Timestamp
  collapsed : Bool

/-- Notebook metadata (`editor.rs::NotebookMetadata`). -/
structure NotebookMetadata where
  title : Option String
  author : Option String
  tags : List String
  created_at : Timestamp
  modified_at : Timestamp
  description : Option String
deriving DecidableEq, Repr

/-- Chart type enumeration (`chart.rs::ChartType`). -/
inductive ChartType where
  | Bar
  | Line
  | Pie
  | Doughnut
  | Scatter
  | Bubble
  | Histogram
  | Area
  | Timeline
  | Radar
  | Polar
  | Treemap
  | Sunburst
  | Choropleth
deriving DecidableEq, Repr

/-- 2D point (`chart.rs::Point`). -/
structure Point where
  x : F64
  y : F64
deriving DecidableEq, Repr

/-- Bubble chart point (`chart.rs::BubblePoint`). -/
structure BubblePoint where
  x : F64
  y : F64
  r : F64
deriving DecidableEq, Repr

/-- Hierarchical node for treemap/sunburst (`chart.rs::HierarchicalNode`). -/
inductive HierarchicalNode where
  | mk (name : String) (value : F64) (children : Option (List HierarchicalNode))

/-- Geographic data point for choropleth (`chart.rs::GeoDataPoint`). -/
structure GeoDataPoint where
  region_id : String
  value : F64
  label : Option String
deriving DecidableEq, Repr

/-- Data values, varies by chart type (`chart.rs::DataValues`). -/
inductive DataValues where
  | Numbers (values : List F64)
  | Points (points : List Point)
  | Bubbles (points : List BubblePoint)
  | Hierarchical (nodes : List HierarchicalNode)
  | Geographic (points : List GeoDataPoint)

/-- Color value (`chart.rs::ColorValue`). -/
inductive ColorValue where
  | Single (color : String)
  | Multiple (colors : List String)
deriving DecidableEq, Repr

/-- Dataset styling (`chart.rs::DatasetStyle`). -/
structure DatasetStyle where
  background_color : Option ColorValue
  border_color : Option ColorValue
  border_width : Option F64
  fill : Option Bool
  tension : Option F64
deriving DecidableEq, Repr

/-- A single data series (`chart.rs::Dataset`). -/
structure Dataset where
  label : String
  data : DataValues
  style : Option DatasetStyle

/-- Chart data specification (`chart.rs::ChartData`). -/
structure ChartData where
  labels : List String
  datasets : List Dataset

/-- Legend position (`chart.rs::LegendPosition`). -/
inductive LegendPosition where
  | Top
  | Bottom
  | Left
  | Right
deriving DecidableEq, Repr

/-- Axis configuration (`chart.rs::AxisConfig`). -/
structure AxisConfig where
  title : Option String
  min : Option F64
  max : Option F64
  begin_at_zero : Bool
  stacked : Bool
deriving DecidableEq, Repr

/-- Chart options (`chart.rs::ChartOptions`). -/
structure ChartOptions where
  responsive : Bool
  maintain_aspect_ratio : Bool
  show_legend : Bool
  legend_position : LegendPosition
  x_axis : Option AxisConfig
  y_axis : Option AxisConfig
  tooltips : Bool
  animations : Bool
deriving DecidableEq, Repr

/-- Theme setting (`storage.rs::Theme`, re-exported by `chart.rs`). -/
inductive Theme where
  | Light
  | Dark
  | System
deriving DecidableEq, Repr

/-- Chart configuration (`chart.rs::ChartConfig`). -/
structure ChartConfig where
  id : String
  chart_type : ChartType
  title : Option String
  data : ChartData
  options : Option ChartOptions
  theme : Theme

/-- Notebook document (`editor.rs::Notebook`). -/
structure Notebook where
  version : Nat
  metadata : NotebookMetadata
  cells : List Cell
  loaded_data : List String
  charts : List ChartConfig

/-- Cached Parquet file metadata, without data bytes
(`storage.rs::CachedParquet`). -/
structure CachedParquet where
  url : String
  size : Nat
  etag : Option String
  fetched_at : Timestamp
  last_accessed : Timestamp
  content_hash : String
deriving DecidableEq, Repr

/-- Cache validation result (`storage.rs::CacheValidation`). -/
inductive CacheValidation where
  | Valid
  | Stale
  | Missing
deriving DecidableEq, Repr

/-- Cache statistics (`storage.rs::CacheStats`). -/
structure CacheStats where
  file_count : Nat
  total_size : Nat
  oldest_entry : Option Timestamp
  newest_entry : Option Timestamp
deriving DecidableEq, Repr

/-- Notebook summary for list view (`storage.rs::NotebookSummary`). -/
structure NotebookSummary where
  id : String
  title : String
  created_at : Timestamp
  updated_at : Timestamp
  cell_count : Nat
  tags : List String
  nostr_event_id : Option String
deriving DecidableEq, Repr

/-- Encrypted key storage (`storage.rs::EncryptedKey`). -/
structure EncryptedKey where
  ciphertext : String
  salt : String
  algorithm : String
deriving DecidableEq, Repr

/-- Nostr-related preferences (`storage.rs::NostrPreferences`). -/
structure NostrPreferences where
  encrypted_nsec : Option EncryptedKey
  npub : Option String
  relays : List String
  auto_publish : Bool
deriving DecidableEq, Repr

/-- Editor preferences (`storage.rs::EditorPreferences`). -/
structure EditorPreferences where
  font_size : Nat
  tab_size : Nat
  line_numbers : Bool
  word_wrap : Bool
  autocomplete : Bool
deriving DecidableEq, Repr

/-- Query execution preferences (`storage.rs::QueryPreferences`). -/
structure QueryPreferences where
  max_rows : Nat
  timeout_seconds : Nat
  auto_run : Bool
deriving DecidableEq, Repr

/-- User preferences container (`storage.rs::UserPreferences`). -/
structure UserPreferences where
  theme : Theme
  nostr : NostrPreferences
  editor : EditorPreferences
  query : QueryPreferences
deriving DecidableEq, Repr

/-- Storage quota information (`storage.rs::StorageQuota`).  In the
source, `total`, `available` and `usage_percent` are all `Option`
fields (`total: Option<u64>`, `available: Option<u64>`,
`usage_percent: Option<f32>`); only `used: u64` is unconditional. -/
structure StorageQuota where
  total : Option Nat
  used : Nat
  available : Option Nat
  usage_percent : Option F32
deriving DecidableEq, Repr

/-- Exported data for backup/restore (`storage.rs::ExportedData`). -/
structure ExportedData where
  version : Nat
  exported_at : Timestamp
  notebooks : List Notebook
  preferences : UserPreferences
  cache_metadata : List CachedParquet

/-- Commands sent to the StorageEngine (`storage.rs::StorageCommand`). -/
inductive StorageCommand where
  | CheckCache (url : String) (etag : Option String)
  | CacheParquet (url : String) (data_base64 : String) (etag : Option String)
  | GetCachedParquet (url : String)
  | EvictCache (url : String)
  | ClearCache
  | GetCacheStats
  | SaveNotebook (notebook : Notebook)
  | LoadNotebook (id : String)
  | DeleteNotebook (id : String)
  | ListNotebooks
  | ExportNotebook (id : String)
  | ImportNotebook (json : String)
  | GetPreferences
  | UpdatePreferences (preferences : UserPreferences)
  | ClearPreferences
  | GetQuota
  | RunCleanup (target_bytes : Nat)
  | ExportAll
  | ImportAll (data : ExportedData)

/-- The serde wire tag of a `StorageCommand`, as fixed by the
`#[serde(rename = ...)]` attributes on `storage.rs::StorageCommand`. -/
def StorageCommand.tag : StorageCommand → String
  | CheckCache _ _ => "check_cache"
  | CacheParquet _ _ _ => "cache_parquet"
  | GetCachedParquet _ => "get_cached_parquet"
  | EvictCache _ => "evict_cache"
  | ClearCache => "clear_cache"
  | GetCacheStats => "get_cache_stats"
  | SaveNotebook _ => "save_notebook"
  | LoadNotebook _ => "load_notebook"
  | DeleteNotebook _ => "delete_notebook"
  | ListNotebooks => "list_notebooks"
  | ExportNotebook _ => "export_notebook"
  | ImportNotebook _ => "import_notebook"
  | GetPreferences => "get_preferences"
  | UpdatePreferences _ => "update_preferences"
  | ClearPreferences => "clear_preferences"
  | GetQuota => "get_quota"
  | RunCleanup _ => "run_cleanup"
  | ExportAll => "export_all"
  | ImportAll _ => "import_all"

/-- The nineteen command tags listed in the external-interface section
of the design document, in declaration order of `StorageCommand`. -/
def storageCommandTags : List String :=
  ["check_cache", "cache_parquet", "get_cached_parquet", "evict_cache",
   "clear_cache", "get_cache_stats", "save_notebook", "load_notebook",
   "delete_notebook", "list_notebooks", "export_notebook", "import_notebook",
   "get_preferences", "update_preferences", "clear_preferences", "get_quota",
   "run_cleanup", "export_all", "import_all"]

/-- Storage error types (`storage.rs::StorageError`). -/
inductive StorageError where
  | QuotaExceeded (required : Nat) (available : Nat)
  | NotFound (key : String)
  | Corrupted (key : String) (message : String)
  | DatabaseError (message : String)
  | SerializationError (message : String)
  | NotSupported
deriving DecidableEq, Repr

/-- Events emitted by the StorageEngine (`storage.rs::StorageEvent`). -/
inductive StorageEvent where
  | CacheStatus (url : String) (status : CacheValidation)
      (metadata : Option CachedParquet)
  | ParquetCached (url : String) (size : Nat)
  | CachedParquetLoaded (url : String) (data_base64 : String)
      (metadata : CachedParquet)
  | CacheEvicted (url : String) (freed_bytes : Nat)
  | CacheCleared (entries_removed : Nat) (bytes_freed : Nat)
  | CacheStats (stats : CacheStats)
  | NotebookSaved (id : String) (updated_at : Timestamp)
  | NotebookLoaded (notebook : Notebook)
  | NotebookDeleted (id : String)
  | NotebookList (notebooks : List NotebookSummary)
  | NotebookExported (id : String) (json : String)
  | NotebookImported (notebook : Notebook)
  | PreferencesLoaded (preferences : UserPreferences)
  | PreferencesUpdated (preferences : UserPreferences)
  | PreferencesCleared
  | QuotaInfo (quota : StorageQuota)
  | CleanupCompleted (entries_removed : Nat) (bytes_freed : Nat)
  | DataExported (data : ExportedData)
  | DataImported (notebooks_count : Nat) (cache_entries_count : Nat)
  | Error (operation : String) (error : StorageError)
  | QuotaWarning (used : Nat) (total : Nat) (percent : F32)

/-- The serde wire tag of a `StorageEvent`, as fixed by the
`#[serde(rename = ...)]` attributes on `storage.rs::StorageEvent`. -/
def StorageEvent.tag : StorageEvent → String
  | CacheStatus _ _ _ => "cache_status"
  | ParquetCached _ _ => "parquet_cached"
  | CachedParquetLoaded _ _ _ => "cached_parquet_loaded"
  | CacheEvicted _ _ => "cache_evicted"
  | CacheCleared _ _ => "cache_cleared"
  | CacheStats _ => "cache_stats"
  | NotebookSaved _ _ => "notebook_saved"
  | NotebookLoaded _ => "notebook_loaded"
  | NotebookDeleted _ => "notebook_deleted"
  | NotebookList _ => "notebook_list"
  | NotebookExported _ _ => "notebook_exported"
  | NotebookImported _ => "notebook_imported"
  | PreferencesLoaded _ => "preferences_loaded"
  | PreferencesUpdated _ => "preferences_updated"
  | PreferencesCleared => "preferences_cleared"
  | QuotaInfo _ => "quota_info"
  | CleanupCompleted _ _ => "cleanup_completed"
  | DataExported _ => "data_exported"
  | DataImported _ _ => "data_imported"
  | Error _ _ => "error"
  | QuotaWarning _ _ _ => "quota_warning"

/-- The twenty-one event tags listed in the external-interface section
of the design document, in declaration order of `StorageEvent`. -/
def storageEventTags : List String :=
  ["cache_status", "parquet_cached", "cached_parquet_loaded", "cache_evicted",
   "cache_cleared", "cache_stats", "notebook_saved", "notebook_loaded",
   "notebook_deleted", "notebook_list", "notebook_exported",
   "notebook_imported", "preferences_loaded", "preferences_updated",
   "preferences_cleared", "quota_info", "cleanup_completed", "data_exported",
   "data_imported", "error", "quota_warning"]

/-- LRU eviction configuration (`storage.rs::EvictionConfig`). -/
structure EvictionConfig where
  max_cache_size : Nat
  target_size : Nat
  min_entries : Nat
  max_age_seconds : Int
deriving DecidableEq, Repr

/-- `EvictionConfig::default` (`storage.rs`): 500 MB maximum, 400 MB
target, keep at least 5 entries, force out entries older than 30 days. -/
def EvictionConfig.default : EvictionConfig where
  max_cache_size := 500 * 1024 * 1024
  target_size := 400 * 1024 * 1024
  min_entries := 5
  max_age_seconds := 30 * 24 * 3600

/-- Eviction result (`storage.rs::EvictionResult`). -/
structure EvictionResult where
  entries_removed : Nat
  bytes_freed : Nat
deriving DecidableEq, Repr

/-- A concrete notebook value, used to witness that every command and
event tag is realised by some constructor. -/
def sampleNotebook : Notebook where
  version := 1
  metadata :=
    { title := none, author := none, tags := [], created_at := 0,
      modified_at := 0, description := none }
  cells := []
  loaded_data := []
  charts := []

/-- A concrete preferences value, used in tag-surjectivity witnesses. -/
def samplePreferences : UserPreferences where
  theme := Theme.System
  nostr := { encrypted_nsec := none, npub := none, relays := [],
             auto_publish := false }
  editor := { font_size := 14, tab_size := 2, line_numbers := true,
              word_wrap := false, autocomplete := true }
  query := { max_rows := 10000, timeout_seconds := 30, auto_run := false }

/-- A concrete backup payload, used in tag-surjectivity witnesses. -/
def sampleExported : ExportedData where
  version := 1
  exported_at := 0
  notebooks := []
  preferences := samplePreferences
  cache_metadata := []

/-- Modelled from the spec: the EvictionPolicy component (design
document section 4.2) is not part of the `types` crate sources; only
its configuration (`EvictionConfig`) and result (`EvictionResult`)
types are.  An entry is "forced" (eligible for age-based removal) when
its age in seconds, measured from its millisecond fetch timestamp,
has reached `max_age_seconds`. -/
def isForced (cfg : EvictionConfig) (now : Timestamp) (e : CachedParquet) :
    Bool :=
  decide (cfg.max_age_seconds ≤ (((now - e.fetched_at) / 1000 : Nat) : Int))

/-- Modelled from the spec: ordering of forced entries, oldest
`fetched_at` first, ties broken by URL lexicographic order. -/
def forcedLe (a b : CachedParquet) : Bool :=
  decide (a.fetched_at < b.fetched_at) ||
    (decide (a.fetched_at = b.fetched_at) && decide (a.url ≤ b.url))

/-- Modelled from the spec: ordering of normal entries, oldest
`last_accessed` first (true LRU), ties broken by URL lexicographic
order. -/
def lruLe (a b : CachedParquet) : Bool :=
  decide (a.last_accessed < b.last_accessed) ||
    (decide (a.last_accessed = b.last_accessed) && decide (a.url ≤ b.url))

/-- Insertion into a list sorted by `le`. -/
def insertLe (le : CachedParquet → CachedParquet → Bool)
    (x : CachedParquet) : List CachedParquet → List CachedParquet
  | [] => [x]
  | y :: ys => if le x y then x :: y :: ys else y :: insertLe le x ys

/-- Insertion sort by `le` (stable, executable). -/
def sortLe (le : CachedParquet → CachedParquet → Bool) :
    List CachedParquet → List CachedParquet
  | [] => []
  | x :: xs => insertLe le x (sortLe le xs)

/-- Modelled from the spec: the removal walk of design section 4.2
step 3 and 4.  Entries arrive in removal candidate order; `remaining`
counts entries still present.  The walk stops once the requested
amount is freed and at least `min_entries` entries remain; a forced
entry may be removed even below `min_entries`, a normal entry only
while more than `min_entries` entries remain, and the walk stops at
the first entry protected by `min_entries` (a partial result). -/
def drainGo (cfg : EvictionConfig) (now : Timestamp) (target : Nat) :
    List CachedParquet → Nat → Nat → List String × Nat
  | [], _, freed => ([], freed)
  | e :: rest, remaining, freed =>
    if target ≤ freed ∧ cfg.min_entries ≤ remaining then ([], freed)
    else if isForced cfg now e || decide (cfg.min_entries < remaining) then
      let r := drainGo cfg now target rest (remaining - 1) (freed + e.size)
      (e.url :: r.1, r.2)
    else ([], freed)

/-- Modelled from the spec: the pure eviction decision of design
section 4.2.  Partition the entries into forced (over-age) and normal,
order forced oldest-`fetched_at`-first and normal
oldest-`last_accessed`-first, then drain forced before normal,
returning the ordered list of removed URLs and the bytes freed. -/
def cleanupPlan (cfg : EvictionConfig) (now : Timestamp) (target : Nat)
    (entries : List CachedParquet) : List String × Nat :=
  drainGo cfg now target
    (sortLe forcedLe (entries.filter (fun e => isForced cfg now e)) ++
      sortLe lruLe (entries.filter (fun e => !(isForced cfg now e))))
    entries.length 0

/-- C1: `EvictionConfig::default` yields `max_cache_size` of 500 MiB,
`target_size` of 400 MiB (exactly 80 percent of the maximum),
`min_entries` of 5 and `max_age_seconds` of 30 days; in particular
the default satisfies `target_size < max_cache_size`. -/
theorem C1_eviction_config_default :
    EvictionConfig.default.max_cache_size = 500 * 1024 * 1024 ∧
    EvictionConfig.default.target_size = 400 * 1024 * 1024 ∧
    EvictionConfig.default.min_entries = 5 ∧
    EvictionConfig.default.max_age_seconds = 30 * 24 * 3600 ∧
    EvictionConfig.default.target_size * 5 =
      EvictionConfig.default.max_cache_size * 4 ∧
    EvictionConfig.default.target_size <
      EvictionConfig.default.max_cache_size := by
  refine ⟨rfl, rfl, rfl, rfl, ?_, ?_⟩
  · norm_num [EvictionConfig.default]
  · norm_num [EvictionConfig.default]

/-- C3: `StorageCommand` is a closed tagged union with exactly the
nineteen listed command tags and no others; `run_cleanup` carries a
`target_bytes` field and `import_all` carries an `ExportedData`
payload. -/
theorem C3_storage_command_closed :
    storageCommandTags.length = 19 ∧ storageCommandTags.Nodup ∧
    (∀ c : StorageCommand, c.tag ∈ storageCommandTags) ∧
    (∀ t ∈ storageCommandTags, ∃ c : StorageCommand, c.tag = t) ∧
    (∀ c : StorageCommand, c.tag = "run_cleanup" →
      ∃ n : Nat, c = StorageCommand.RunCleanup n) ∧
    (∀ c : StorageCommand, c.tag = "import_all" →
      ∃ d : ExportedData, c = StorageCommand.ImportAll d) := by
  refine ⟨by decide, by decide, ?_, ?_, ?_, ?_⟩
  · intro c
    cases c <;> simp [StorageCommand.tag, storageCommandTags]
  · intro t ht
    simp only [storageCommandTags, List.mem_cons, List.not_mem_nil,
      or_false] at ht
    rcases ht with rfl|rfl|rfl|rfl|rfl|rfl|rfl|rfl|rfl|rfl|rfl|rfl|rfl|rfl|rfl|rfl|rfl|rfl|rfl
    · exact ⟨StorageCommand.CheckCache "" none, rfl⟩
    · exact ⟨StorageCommand.CacheParquet "" "" none, rfl⟩
    · exact ⟨StorageCommand.GetCachedParquet "", rfl⟩
    · exact ⟨StorageCommand.EvictCache "", rfl⟩
    · exact ⟨StorageCommand.ClearCache, rfl⟩
    · exact ⟨StorageCommand.GetCacheStats, rfl⟩
    · exact ⟨StorageCommand.SaveNotebook sampleNotebook, rfl⟩
    · exact ⟨StorageCommand.LoadNotebook "", rfl⟩
    · exact ⟨StorageCommand.DeleteNotebook "", rfl⟩
    · exact ⟨StorageCommand.ListNotebooks, rfl⟩
    · exact ⟨StorageCommand.ExportNotebook "", rfl⟩
    · exact ⟨StorageCommand.ImportNotebook "", rfl⟩
    · exact ⟨StorageCommand.GetPreferences, rfl⟩
    · exact ⟨StorageCommand.UpdatePreferences samplePreferences, rfl⟩
    · exact ⟨StorageCommand.ClearPreferences, rfl⟩
    · exact ⟨StorageCommand.GetQuota, rfl⟩
    · exact ⟨StorageCommand.RunCleanup 0, rfl⟩
    · exact ⟨StorageCommand.ExportAll, rfl⟩
    · exact ⟨StorageCommand.ImportAll sampleExported, rfl⟩
  · intro c h
    cases c <;> simp_all [StorageCommand.tag]
  · intro c h
    cases c <;> simp_all [StorageCommand.tag]

/-- Witness for C3 at concrete inputs: the tag `run_cleanup` is
realised, and `RunCleanup 7` is inverted by the tag. -/
theorem C3_storage_command_closed_witness :
    (∃ c : StorageCommand, c.tag = "run_cleanup") ∧
    (∃ n : Nat, StorageCommand.RunCleanup 7 = StorageCommand.RunCleanup n) :=
  ⟨C3_storage_command_closed.2.2.2.1 "run_cleanup" (by decide),
   C3_storage_command_closed.2.2.2.2.1 (StorageCommand.RunCleanup 7) rfl⟩

/-- C4: `StorageEvent` is a closed tagged union with exactly the
twenty-one listed event tags and no others; the `error` event carries
an operation name and a structured `StorageError`, and
`quota_warning` carries `used`, `total` and `percent` fields. -/
theorem C4_storage_event_closed :
    storageEventTags.length = 21 ∧ storageEventTags.Nodup ∧
    (∀ ev : StorageEvent, ev.tag ∈ storageEventTags) ∧
    (∀ t ∈ storageEventTags, ∃ ev : StorageEvent, ev.tag = t) ∧
    (∀ ev : StorageEvent, ev.tag = "error" →
      ∃ (op : String) (err : StorageError), ev = StorageEvent.Error op err) ∧
    (∀ ev : StorageEvent, ev.tag = "quota_warning" →
      ∃ (u t : Nat) (p : F32), ev = StorageEvent.QuotaWarning u t p) := by
  refine ⟨by decide, by decide, ?_, ?_, ?_, ?_⟩
  · intro ev
    cases ev <;> simp [StorageEvent.tag, storageEventTags]
  · intro t ht
    simp only [storageEventTags, List.mem_cons, List.not_mem_nil,
      or_false] at ht
    rcases ht with rfl|rfl|rfl|rfl|rfl|rfl|rfl|rfl|rfl|rfl|rfl|rfl|rfl|rfl|rfl|rfl|rfl|rfl|rfl|rfl|rfl
    · exact ⟨StorageEvent.CacheStatus "" CacheValidation.Valid none, rfl⟩
    · exact ⟨StorageEvent.ParquetCached "" 0, rfl⟩
    · exact ⟨StorageEvent.CachedParquetLoaded "" "" ⟨"", 0, none, 0, 0, ""⟩, rfl⟩
    · exact ⟨StorageEvent.CacheEvicted "" 0, rfl⟩
    · exact ⟨StorageEvent.CacheCleared 0 0, rfl⟩
    · exact ⟨StorageEvent.CacheStats ⟨0, 0, none, none⟩, rfl⟩
    · exact ⟨StorageEvent.NotebookSaved "" 0, rfl⟩
    · exact ⟨StorageEvent.NotebookLoaded sampleNotebook, rfl⟩
    · exact ⟨StorageEvent.NotebookDeleted "", rfl⟩
    · exact ⟨StorageEvent.NotebookList [], rfl⟩
    · exact ⟨StorageEvent.NotebookExported "" "", rfl⟩
    · exact ⟨StorageEvent.NotebookImported sampleNotebook, rfl⟩
    · exact ⟨StorageEvent.PreferencesLoaded samplePreferences, rfl⟩
    · exact ⟨StorageEvent.PreferencesUpdated samplePreferences, rfl⟩
    · exact ⟨StorageEvent.PreferencesCleared, rfl⟩
    · exact ⟨StorageEvent.QuotaInfo ⟨none, 0, none, none⟩, rfl⟩
    · exact ⟨StorageEvent.CleanupCompleted 0 0, rfl⟩
    · exact ⟨StorageEvent.DataExported sampleExported, rfl⟩
    · exact ⟨StorageEvent.DataImported 0 0, rfl⟩
    · exact ⟨StorageEvent.Error "" StorageError.NotSupported, rfl⟩
    · exact ⟨StorageEvent.QuotaWarning 0 0 ⟨0⟩, rfl⟩
  · intro ev h
    cases ev <;> simp_all [StorageEvent.tag]
  · intro ev h
    cases ev <;> simp_all [StorageEvent.tag]

/-- Witness for C4 at concrete inputs: the tag `quota_warning` is
realised, and a concrete `Error` event is inverted by its tag. -/
theorem C4_storage_event_closed_witness :
    (∃ ev : StorageEvent, ev.tag = "quota_warning") ∧
    (∃ (op : String) (err : StorageError),
      StorageEvent.Error "save_notebook" StorageError.NotSupported =
        StorageEvent.Error op err) :=
  ⟨C4_storage_event_closed.2.2.2.1 "quota_warning" (by decide),
   C4_storage_event_closed.2.2.2.2.1
     (StorageEvent.Error "save_notebook" StorageError.NotSupported) rfl⟩

/-- C5: `StorageError` has exactly the six variants `QuotaExceeded`
with `required` and `available`, `NotFound` with `key`, `Corrupted`
with `key` and `message`, `DatabaseError` with `message`,
`SerializationError` with `message`, and the field-less
`NotSupported`; no other error kind is representable. -/
theorem C5_storage_error_closed (e : StorageError) :
    (∃ r a, e = StorageError.QuotaExceeded r a) ∨
    (∃ k, e = StorageError.NotFound k) ∨
    (∃ k m, e = StorageError.Corrupted k m) ∨
    (∃ m, e = StorageError.DatabaseError m) ∨
    (∃ m, e = StorageError.SerializationError m) ∨
    e = StorageError.NotSupported := by
  cases e <;> simp

/-- C6: for every payload type `T`, a `Request T` carries exactly a
correlation identifier, a timestamp and the payload; a `Response T`
carries exactly the correlation identifier, a timestamp, an
`execution_time_ms` measurement and a result; and every
`MessageResult T` is exactly `Ok` with data or `Error` with a
structured `ErrorInfo` — there is no third result shape. -/
theorem C6_message_envelopes (T : Type) :
    (∀ r : Request T, ∃! x : MessageId × Timestamp × T,
      r = { id := x.1, timestamp := x.2.1, payload := x.2.2 }) ∧
    (∀ r : Response T,
      ∃! x : MessageId × Timestamp × Nat × MessageResult T,
        r = { id := x.1, timestamp := x.2.1, execution_time_ms := x.2.2.1,
              result := x.2.2.2 }) ∧
    (∀ m : MessageResult T,
      (∃ d, m = MessageResult.Ok d) ∨ (∃ e, m = MessageResult.Error e)) := by
  refine ⟨?_, ?_, ?_⟩
  · intro r
    refine ⟨(r.id, r.timestamp, r.payload), rfl, ?_⟩
    rintro ⟨a, b, c⟩ rfl
    rfl
  · intro r
    refine ⟨(r.id, r.timestamp, r.execution_time_ms, r.result), rfl, ?_⟩
    rintro ⟨a, b, c, d⟩ rfl
    rfl
  · intro m
    cases m with
    | Ok d => exact Or.inl ⟨d, rfl⟩
    | Error e => exact Or.inr ⟨e, rfl⟩

/-- Witness for C6 at a concrete request over `T = Nat`. -/
theorem C6_message_envelopes_witness :
    ∃! x : MessageId × Timestamp × Nat,
      ({ id := "r1", timestamp := 5, payload := 9 } : Request Nat) =
        { id := x.1, timestamp := x.2.1, payload := x.2.2 } :=
  (C6_message_envelopes Nat).1 { id := "r1", timestamp := 5, payload := 9 }

/-- C7: every `ExportedData` consists exactly of a format version, an
export timestamp, the notebooks, the preferences and cache metadata
as `CachedParquet` records; and a `CachedParquet` record carries only
`url`, `size`, optional `etag`, `fetched_at`, `last_accessed` and
`content_hash` — no field of the export holds cached payload bytes. -/
theorem C7_export_metadata_only :
    (∀ d : ExportedData,
      ∃! x : Nat × Timestamp × List Notebook × UserPreferences ×
          List CachedParquet,
        d = { version := x.1, exported_at := x.2.1, notebooks := x.2.2.1,
              preferences := x.2.2.2.1, cache_metadata := x.2.2.2.2 }) ∧
    (∀ p : CachedParquet,
      ∃! y : String × Nat × Option String × Timestamp × Timestamp × String,
        p = { url := y.1, size := y.2.1, etag := y.2.2.1,
              fetched_at := y.2.2.2.1, last_accessed := y.2.2.2.2.1,
              content_hash := y.2.2.2.2.2 }) := by
  constructor
  · intro d
    refine ⟨(d.version, d.exported_at, d.notebooks, d.preferences,
      d.cache_metadata), rfl, ?_⟩
    rintro ⟨a, b, c, e, f⟩ rfl
    rfl
  · intro p
    refine ⟨(p.url, p.size, p.etag, p.fetched_at, p.last_accessed,
      p.content_hash), rfl, ?_⟩
    rintro ⟨a, b, c, e, f, g⟩ rfl
    rfl

/-- Witness for C7 at a concrete cache-metadata record. -/
theorem C7_export_metadata_only_witness :
    ∃! y : String × Nat × Option String × Timestamp × Timestamp × String,
      ({ url := "u", size := 3, etag := some "e", fetched_at := 1,
         last_accessed := 2, content_hash := "h" } : CachedParquet) =
        { url := y.1, size := y.2.1, etag := y.2.2.1,
          fetched_at := y.2.2.2.1, last_accessed := y.2.2.2.2.1,
          content_hash := y.2.2.2.2.2 } :=
  C7_export_metadata_only.2
    { url := "u", size := 3, etag := some "e", fetched_at := 1,
      last_accessed := 2, content_hash := "h" }

/-- C8: the `EvictionConfig` data definition places no validation on
the relation between `target_size` and `max_cache_size`: every pair
of `u64` values, including inverted ones, is representable, and the
only provided constructor, `EvictionConfig::default`, itself
satisfies `target_size < max_cache_size`. -/
theorem C8_eviction_config_unvalidated (m t e : Nat) (a : Int)
    (hm : m < 2 ^ 64) (ht : t < 2 ^ 64) :
    (∃ c : EvictionConfig, c.max_cache_size = m ∧ c.target_size = t ∧
      c.min_entries = e ∧ c.max_age_seconds = a) ∧
    EvictionConfig.default.target_size <
      EvictionConfig.default.max_cache_size := by
  refine ⟨⟨(⟨m, t, e, a⟩ : EvictionConfig), rfl, rfl, rfl, rfl⟩, ?_⟩
  norm_num [EvictionConfig.default]

/-- Witness for C8 at a concrete inverted configuration with
`target_size = 999 > 10 = max_cache_size`. -/
theorem C8_eviction_config_unvalidated_witness :
    (∃ c : EvictionConfig, c.max_cache_size = 10 ∧ c.target_size = 999 ∧
      c.min_entries = 0 ∧ c.max_age_seconds = -1) ∧
    EvictionConfig.default.target_size <
      EvictionConfig.default.max_cache_size :=
  C8_eviction_config_unvalidated 10 999 0 (-1) (by norm_num) (by norm_num)

/-- C9 counterexample: the source `StorageQuota` marks `available`
and `usage_percent` as `Option` fields, so a quota snapshot without
an available-bytes component and without a usage percentage is
representable, contradicting the claim that only `total` is optional
and that `available` and the usage percentage are components of
every snapshot. -/
theorem C9_quota_counterexample :
    ({ total := some 100, used := 10, available := none,
       usage_percent := none } : StorageQuota).available.isSome = false ∧
    ({ total := some 100, used := 10, available := none,
       usage_percent := none } : StorageQuota).usage_percent.isSome = false :=
  ⟨rfl, rfl⟩

/-- C9 amended: every `StorageQuota` comprises an optional
host-reported `total`, the always-present `used` bytes, an optional
`available` bytes and an optional `usage_percent`; each combination
of present and absent optional components determines exactly one
snapshot value. -/
theorem C9_quota_shape (t : Option Nat) (u : Nat) (a : Option Nat)
    (p : Option F32) :
    ∃! q : StorageQuota,
      q.total = t ∧ q.used = u ∧ q.available = a ∧ q.usage_percent = p := by
  refine ⟨{ total := t, used := u, available := a, usage_percent := p },
    ⟨rfl, rfl, rfl, rfl⟩, ?_⟩
  rintro ⟨qt, qu, qa, qp⟩ ⟨rfl, rfl, rfl, rfl⟩
  rfl

/-- Witness for C9 amended at concrete field values. -/
theorem C9_quota_shape_witness :
    ∃! q : StorageQuota,
      q.total = some 50 ∧ q.used = 7 ∧ q.available = none ∧
        q.usage_percent = none :=
  C9_quota_shape (some 50) 7 none none

/-- C10: for every payload type `T`, `is_ok` and `is_error` are
complementary on every `MessageResult T`; `ok` builds an `Ok` result,
`error` builds an `Error` whose `ErrorInfo` has exactly the given
code and message with no details, and `error_with_details` fills the
details field. -/
theorem C10_message_result_ops (T : Type) :
    (∀ m : MessageResult T, m.is_ok = !m.is_error) ∧
    (∀ d : T, (MessageResult.ok d).is_ok = true) ∧
    (∀ (c : ErrorCode) (msg : String),
      (MessageResult.error c msg : MessageResult T) =
        MessageResult.Error { code := c, message := msg, details := none }) ∧
    (∀ (c : ErrorCode) (msg det : String),
      (MessageResult.error_with_details c msg det : MessageResult T) =
        MessageResult.Error
          { code := c, message := msg, details := some det }) := by
  refine ⟨?_, fun d => rfl, fun c msg => rfl, fun c msg det => rfl⟩
  intro m
  cases m <;> rfl

/-- Helper: the removal walk returns immediately once the requested
amount is freed and at least `min_entries` entries remain. -/
theorem drainGo_stop (cfg : EvictionConfig) (now : Timestamp) (tgt : Nat)
    (l : List CachedParquet) (rem freed : Nat)
    (h1 : tgt ≤ freed) (h2 : cfg.min_entries ≤ rem) :
    drainGo cfg now tgt l rem freed = ([], freed) := by
  cases l with
  | nil => simp only [drainGo]
  | cons e rest =>
    simp only [drainGo]
    rw [if_pos ⟨h1, h2⟩]

/-- Helper: while the stop condition fails and the head entry is not
protected by `min_entries`, the walk removes the head entry. -/
theorem drainGo_step (cfg : EvictionConfig) (now : Timestamp) (tgt : Nat)
    (e : CachedParquet) (rest : List CachedParquet) (rem freed : Nat)
    (hstop : ¬(tgt ≤ freed ∧ cfg.min_entries ≤ rem))
    (hnf : isForced cfg now e = false)
    (hrem : cfg.min_entries < rem) :
    drainGo cfg now tgt (e :: rest) rem freed =
      (e.url :: (drainGo cfg now tgt rest (rem - 1) (freed + e.size)).1,
        (drainGo cfg now tgt rest (rem - 1) (freed + e.size)).2) := by
  simp only [drainGo]
  rw [if_neg hstop, if_pos (by simp [hnf, hrem])]

/-- C2: for cache entries none of which is over-age, the cleanup pass
removes entries oldest `last_accessed` first; for three entries `A`,
`B`, `C` with strictly increasing `last_accessed`, presented in any
order (here `[B, C, A]`), a cleanup asked to free at most `A`'s size
removes exactly `A`, a larger request removes `A` then `B`, and a
still larger one removes `A`, `B`, `C` in that order. -/
theorem C2_cleanup_lru_order (A B C : CachedParquet)
    (cfg : EvictionConfig) (now : Timestamp)
    (target1 target2 target3 : Nat)
    (hmin : cfg.min_entries = 0)
    (hnfA : isForced cfg now A = false)
    (hnfB : isForced cfg now B = false)
    (hnfC : isForced cfg now C = false)
    (h12 : A.last_accessed < B.last_accessed)
    (h23 : B.last_accessed < C.last_accessed)
    (ht1 : 0 < target1) (ht1' : target1 ≤ A.size)
    (ht2 : A.size < target2) (ht2' : target2 ≤ A.size + B.size)
    (ht3 : A.size + B.size < target3) :
    (cleanupPlan cfg now target1 [B, C, A]).1 = [A.url] ∧
    (cleanupPlan cfg now target2 [B, C, A]).1 = [A.url, B.url] ∧
    (cleanupPlan cfg now target3 [B, C, A]).1 = [A.url, B.url, C.url] := by
  have h13 : A.last_accessed < C.last_accessed := lt_trans h12 h23
  have nBA : lruLe B A = false := by
    simp only [lruLe, Bool.or_eq_false_iff, Bool.and_eq_false_iff,
      decide_eq_false_iff_not]
    exact ⟨Nat.lt_asymm h12, Or.inl (ne_of_gt h12)⟩
  have nCA : lruLe C A = false := by
    simp only [lruLe, Bool.or_eq_false_iff, Bool.and_eq_false_iff,
      decide_eq_false_iff_not]
    exact ⟨Nat.lt_asymm h13, Or.inl (ne_of_gt h13)⟩
  have pBC : lruLe B C = true := by
    simp only [lruLe, Bool.or_eq_true, decide_eq_true_eq]
    exact Or.inl h23
  have hplan : ∀ target, cleanupPlan cfg now target [B, C, A] =
      drainGo cfg now target [A, B, C] 3 0 := by
    intro target
    simp [cleanupPlan, List.filter, hnfA, hnfB, hnfC, sortLe, insertLe,
      nBA, nCA, pBC]
  refine ⟨?_, ?_, ?_⟩
  · rw [hplan,
      drainGo_step cfg now target1 A [B, C] 3 0 (by omega) hnfA (by omega),
      drainGo_stop cfg now target1 [B, C] 2 (0 + A.size) (by omega) (by omega)]
  · rw [hplan,
      drainGo_step cfg now target2 A [B, C] 3 0 (by omega) hnfA (by omega),
      drainGo_step cfg now target2 B [C] 2 (0 + A.size) (by omega) hnfB
        (by omega),
      drainGo_stop cfg now target2 [C] 1 (0 + A.size + B.size) (by omega)
        (by omega)]
  · rw [hplan,
      drainGo_step cfg now target3 A [B, C] 3 0 (by omega) hnfA (by omega),
      drainGo_step cfg now target3 B [C] 2 (0 + A.size) (by omega) hnfB
        (by omega),
      drainGo_step cfg now target3 C [] 1 (0 + A.size + B.size) (by omega)
        hnfC (by omega)]
    simp only [drainGo]

/-- Witness for C2 at concrete entries `a`, `b`, `c` with
`last_accessed` 1, 2, 3, size 10 each, none over-age at `now = 1000`,
under a configuration with `min_entries = 0`. -/
theorem C2_cleanup_lru_order_witness :
    (cleanupPlan ⟨100, 80, 0, 2592000⟩ 1000 10
      [⟨"b", 10, none, 900, 2, "hb"⟩, ⟨"c", 10, none, 900, 3, "hc"⟩,
       ⟨"a", 10, none, 900, 1, "ha"⟩]).1 = ["a"] ∧
    (cleanupPlan ⟨100, 80, 0, 2592000⟩ 1000 15
      [⟨"b", 10, none, 900, 2, "hb"⟩, ⟨"c", 10, none, 900, 3, "hc"⟩,
       ⟨"a", 10, none, 900, 1, "ha"⟩]).1 = ["a", "b"] ∧
    (cleanupPlan ⟨100, 80, 0, 2592000⟩ 1000 25
      [⟨"b", 10, none, 900, 2, "hb"⟩, ⟨"c", 10, none, 900, 3, "hc"⟩,
       ⟨"a", 10, none, 900, 1, "ha"⟩]).1 = ["a", "b", "c"] :=
  C2_cleanup_lru_order ⟨"a", 10, none, 900, 1, "ha"⟩
    ⟨"b", 10, none, 900, 2, "hb"⟩ ⟨"c", 10, none, 900, 3, "hc"⟩
    ⟨100, 80, 0, 2592000⟩ 1000 10 15 25 rfl (by decide) (by decide)
    (by decide) (by decide) (by decide) (by decide) (by decide) (by decide)
    (by decide) (by decide)
